import Mathlib

/-!
Shallow embedding of the scx_horoscope scheduling policy engine.

The Rust sources embedded here are:
* `src/astrology/planets.rs`  — celestial data model, banding, retrograde rule,
  position snapshot builder;
* `src/astrology/tasks.rs`    — task classifier and critical-pid check;
* `src/astrology/scheduler.rs`— scoring engine with its TTL cache;
* `src/main.rs`               — time-slice mapping in the dispatch shim.

Rust `f64` arithmetic is modelled over `ℚ` (all constants in the engine are
small decimal literals), `u32`/`u64` casts of nonnegative floats become
`Int.toNat ∘ Int.floor` (both truncate toward zero and send negative values
to zero), and the external astronomical position solver of the `astro` crate
is an abstract parameter (`Ephemeris`), as the spec treats it as an external
collaborator.  This rational idealization replaces each binary64 product by
the exact product; where a property turns on binary64 rounding itself — the
scoring product of C3 truncates one below the exact floor at some reachable
inputs — the rounding is modelled explicitly (`f64RoundScaled`,
round-to-nearest-even on the binade grid, with the exact bit patterns of
the literals involved).
-/

namespace Horoscope

/-- The planets tracked by the scheduler (`planets.rs`, `enum Planet`). -/
inductive Planet
  | Sun
  | Moon
  | Mercury
  | Venus
  | Mars
  | Jupiter
  | Saturn
  deriving DecidableEq, Repr

/-- Zodiac signs (`planets.rs`, `enum ZodiacSign`). -/
inductive ZodiacSign
  | Aries
  | Taurus
  | Gemini
  | Cancer
  | Leo
  | Virgo
  | Libra
  | Scorpio
  | Sagittarius
  | Capricorn
  | Aquarius
  | Pisces
  deriving DecidableEq, Repr

/-- The four elements (`planets.rs`, `enum Element`). -/
inductive Element
  | Fire
  | Earth
  | Air
  | Water
  deriving DecidableEq, Repr

/-- Moon phases (`planets.rs`, `enum MoonPhase`). -/
inductive MoonPhase
  | NewMoon
  | WaxingCrescent
  | FirstQuarter
  | WaxingGibbous
  | FullMoon
  | WaningGibbous
  | LastQuarter
  | WaningCrescent
  deriving DecidableEq, Repr

/-- Rust's `f64::rem_euclid` for a positive modulus, over `ℚ`. -/
def remEuclid (x m : ℚ) : ℚ := x - m * ⌊x / m⌋

/-- The band index computed inside `ZodiacSign::from_longitude`:
`longitude.rem_euclid(360.0) as u32 / 30`. -/
def bandIndex (longitude : ℚ) : ℕ := (⌊remEuclid longitude 360⌋).toNat / 30

/-- `ZodiacSign::from_longitude` (`planets.rs` lines 78-96). -/
def ZodiacSign.fromLongitude (longitude : ℚ) : ZodiacSign :=
  match bandIndex longitude with
  | 0 => ZodiacSign.Aries
  | 1 => ZodiacSign.Taurus
  | 2 => ZodiacSign.Gemini
  | 3 => ZodiacSign.Cancer
  | 4 => ZodiacSign.Leo
  | 5 => ZodiacSign.Virgo
  | 6 => ZodiacSign.Libra
  | 7 => ZodiacSign.Scorpio
  | 8 => ZodiacSign.Sagittarius
  | 9 => ZodiacSign.Capricorn
  | 10 => ZodiacSign.Aquarius
  | _ => ZodiacSign.Pisces

/-- `ZodiacSign::element` (`planets.rs` lines 115-122). -/
def ZodiacSign.element : ZodiacSign → Element
  | ZodiacSign.Aries | ZodiacSign.Leo | ZodiacSign.Sagittarius => Element.Fire
  | ZodiacSign.Taurus | ZodiacSign.Virgo | ZodiacSign.Capricorn => Element.Earth
  | ZodiacSign.Gemini | ZodiacSign.Libra | ZodiacSign.Aquarius => Element.Air
  | ZodiacSign.Cancer | ZodiacSign.Scorpio | ZodiacSign.Pisces => Element.Water

/-- `MoonPhase::from_angle` (`planets.rs` lines 173-185). -/
def MoonPhase.fromAngle (angle : ℚ) : MoonPhase :=
  let normalized := remEuclid angle 360
  if normalized < 45 then MoonPhase.NewMoon
  else if normalized < 90 then MoonPhase.WaxingCrescent
  else if normalized < 135 then MoonPhase.FirstQuarter
  else if normalized < 180 then MoonPhase.WaxingGibbous
  else if normalized < 225 then MoonPhase.FullMoon
  else if normalized < 270 then MoonPhase.WaningGibbous
  else if normalized < 315 then MoonPhase.LastQuarter
  else MoonPhase.WaningCrescent

/-- The wraparound-corrected finite-difference rule at the heart of
`is_retrograde` (`planets.rs` lines 226-236), taking the two already
normalized longitudes (today's and tomorrow's). -/
def retrogradeRule (lonToday lonTomorrow : ℚ) : Bool :=
  let delta := lonTomorrow - lonToday
  if delta > 180 then true
  else if delta < -180 then false
  else decide (delta < 0)

/-- The external astronomical interface consumed by the engine: a pure
longitude solver (degrees, any planet, any julian day) and the julian-day
conversion of a unix-seconds moment.  Both are abstract parameters; the
spec declares the position solver out of scope. -/
structure Ephemeris where
  lon : Planet → ℚ → ℚ
  jd : ℤ → ℚ

/-- `is_retrograde` (`planets.rs` lines 216-237): query today's and
tomorrow's longitudes, normalize each with `limit_to_360`, and apply the
finite-difference rule. -/
def isRetrograde (E : Ephemeris) (p : Planet) (jdToday : ℚ) : Bool :=
  retrogradeRule (remEuclid (E.lon p jdToday) 360)
    (remEuclid (E.lon p (jdToday + 1)) 360)

/-- `struct PlanetaryPosition` (`planets.rs` lines 190-196). -/
structure PlanetaryPosition where
  planet : Planet
  longitude : ℚ
  sign : ZodiacSign
  retrograde : Bool
  moonPhase : Option MoonPhase
  deriving DecidableEq, Repr

/-- `calculate_planetary_positions` (`planets.rs` lines 240-328): one record
per tracked body in source order, the Sun and the Moon never retrograde,
the Moon also carrying the phase derived from the Sun-Moon separation. -/
def calculatePlanetaryPositions (E : Ephemeris) (jd : ℚ) : List PlanetaryPosition :=
  let sunLon := remEuclid (E.lon Planet.Sun jd) 360
  let mercLon := remEuclid (E.lon Planet.Mercury jd) 360
  let venusLon := remEuclid (E.lon Planet.Venus jd) 360
  let marsLon := remEuclid (E.lon Planet.Mars jd) 360
  let jupLon := remEuclid (E.lon Planet.Jupiter jd) 360
  let satLon := remEuclid (E.lon Planet.Saturn jd) 360
  let moonLon := remEuclid (E.lon Planet.Moon jd) 360
  [ { planet := Planet.Sun, longitude := sunLon,
      sign := ZodiacSign.fromLongitude sunLon, retrograde := false,
      moonPhase := none },
    { planet := Planet.Mercury, longitude := mercLon,
      sign := ZodiacSign.fromLongitude mercLon,
      retrograde := isRetrograde E Planet.Mercury jd, moonPhase := none },
    { planet := Planet.Venus, longitude := venusLon,
      sign := ZodiacSign.fromLongitude venusLon,
      retrograde := isRetrograde E Planet.Venus jd, moonPhase := none },
    { planet := Planet.Mars, longitude := marsLon,
      sign := ZodiacSign.fromLongitude marsLon,
      retrograde := isRetrograde E Planet.Mars jd, moonPhase := none },
    { planet := Planet.Jupiter, longitude := jupLon,
      sign := ZodiacSign.fromLongitude jupLon,
      retrograde := isRetrograde E Planet.Jupiter jd, moonPhase := none },
    { planet := Planet.Saturn, longitude := satLon,
      sign := ZodiacSign.fromLongitude satLon,
      retrograde := isRetrograde E Planet.Saturn jd, moonPhase := none },
    { planet := Planet.Moon, longitude := moonLon,
      sign := ZodiacSign.fromLongitude moonLon, retrograde := false,
      moonPhase := some (MoonPhase.fromAngle (remEuclid (moonLon - sunLon) 360)) } ]

/-- Task categories (`tasks.rs`, `enum TaskType`). -/
inductive TaskType
  | Network
  | CpuIntensive
  | Desktop
  | MemoryHeavy
  | System
  | Interactive
  | Critical
  deriving DecidableEq, Repr

/-- `TaskType::ruling_planet` (`tasks.rs` lines 19-29). -/
def TaskType.rulingPlanet : TaskType → Planet
  | TaskType.Network => Planet.Mercury
  | TaskType.CpuIntensive => Planet.Mars
  | TaskType.Desktop => Planet.Venus
  | TaskType.MemoryHeavy => Planet.Jupiter
  | TaskType.System => Planet.Saturn
  | TaskType.Interactive => Planet.Moon
  | TaskType.Critical => Planet.Sun

/-- The pattern table built by `TaskClassifier::new` (`tasks.rs` lines 50-108),
in source insertion order.  The Rust code stores these pairs in a `HashMap`,
whose key lookup is order-independent; only the prefix/substring fallback scan
observes an order, which the source itself leaves unspecified. -/
def patterns : List (String × TaskType) :=
  [ ("ssh", TaskType.Network), ("sshd", TaskType.Network),
    ("curl", TaskType.Network), ("wget", TaskType.Network),
    ("transmission", TaskType.Network), ("discord", TaskType.Network),
    ("slack", TaskType.Network), ("teams", TaskType.Network),
    ("zoom", TaskType.Network), ("thunderbird", TaskType.Network),
    ("evolution", TaskType.Network), ("networkmanager", TaskType.Network),
    ("dhcpcd", TaskType.Network), ("wpa_supplicant", TaskType.Network),
    ("nginx", TaskType.Network), ("apache", TaskType.Network),
    ("httpd", TaskType.Network), ("node", TaskType.Network),
    ("npm", TaskType.Network), ("deno", TaskType.Network),
    ("cc1", TaskType.CpuIntensive), ("rustc", TaskType.CpuIntensive),
    ("make", TaskType.CpuIntensive), ("cargo", TaskType.CpuIntensive),
    ("gcc", TaskType.CpuIntensive), ("clang", TaskType.CpuIntensive),
    ("g++", TaskType.CpuIntensive), ("ld", TaskType.CpuIntensive),
    ("as", TaskType.CpuIntensive), ("ffmpeg", TaskType.CpuIntensive),
    ("blender", TaskType.CpuIntensive), ("gimp", TaskType.CpuIntensive),
    ("inkscape", TaskType.CpuIntensive), ("handbrake", TaskType.CpuIntensive),
    ("x264", TaskType.CpuIntensive), ("x265", TaskType.CpuIntensive),
    ("vpxenc", TaskType.CpuIntensive), ("tar", TaskType.CpuIntensive),
    ("gzip", TaskType.CpuIntensive), ("bzip2", TaskType.CpuIntensive),
    ("xz", TaskType.CpuIntensive), ("zip", TaskType.CpuIntensive),
    ("7z", TaskType.CpuIntensive), ("convert", TaskType.CpuIntensive),
    ("montage", TaskType.CpuIntensive),
    ("gnome-shell", TaskType.Desktop), ("kde", TaskType.Desktop),
    ("plasma", TaskType.Desktop), ("kwin", TaskType.Desktop),
    ("xorg", TaskType.Desktop), ("wayland", TaskType.Desktop),
    ("pulseaudio", TaskType.Desktop), ("pipewire", TaskType.Desktop),
    ("mutter", TaskType.Desktop), ("compiz", TaskType.Desktop),
    ("enlightenment", TaskType.Desktop), ("xfce4", TaskType.Desktop),
    ("lxde", TaskType.Desktop), ("mate-panel", TaskType.Desktop),
    ("cinnamon", TaskType.Desktop), ("budgie", TaskType.Desktop),
    ("polybar", TaskType.Desktop), ("waybar", TaskType.Desktop),
    ("dunst", TaskType.Desktop), ("mako", TaskType.Desktop),
    ("rofi", TaskType.Desktop), ("dmenu", TaskType.Desktop),
    ("postgres", TaskType.MemoryHeavy), ("postgresql", TaskType.MemoryHeavy),
    ("mysql", TaskType.MemoryHeavy), ("mariadb", TaskType.MemoryHeavy),
    ("redis", TaskType.MemoryHeavy), ("memcached", TaskType.MemoryHeavy),
    ("mongodb", TaskType.MemoryHeavy), ("cassandra", TaskType.MemoryHeavy),
    ("elasticsearch", TaskType.MemoryHeavy), ("java", TaskType.MemoryHeavy),
    ("electron", TaskType.MemoryHeavy), ("idea", TaskType.MemoryHeavy),
    ("pycharm", TaskType.MemoryHeavy), ("studio", TaskType.MemoryHeavy),
    ("vscode", TaskType.MemoryHeavy), ("code", TaskType.MemoryHeavy),
    ("docker", TaskType.MemoryHeavy), ("containerd", TaskType.MemoryHeavy),
    ("qemu", TaskType.MemoryHeavy), ("virtualbox", TaskType.MemoryHeavy),
    ("systemd", TaskType.System), ("init", TaskType.System),
    ("kworker", TaskType.System), ("kswapd", TaskType.System),
    ("kthreadd", TaskType.System), ("ksoftirqd", TaskType.System),
    ("migration", TaskType.System), ("rcu", TaskType.System),
    ("watchdog", TaskType.System), ("irqbalance", TaskType.System),
    ("systemd-journald", TaskType.System), ("systemd-udevd", TaskType.System),
    ("systemd-logind", TaskType.System), ("dbus-daemon", TaskType.System),
    ("accounts-daemon", TaskType.System), ("polkitd", TaskType.System),
    ("rtkit-daemon", TaskType.System), ("udisksd", TaskType.System),
    ("upowerd", TaskType.System),
    ("bash", TaskType.Interactive), ("zsh", TaskType.Interactive),
    ("fish", TaskType.Interactive), ("sh", TaskType.Interactive),
    ("vim", TaskType.Interactive), ("nvim", TaskType.Interactive),
    ("emacs", TaskType.Interactive), ("nano", TaskType.Interactive),
    ("less", TaskType.Interactive), ("more", TaskType.Interactive),
    ("cat", TaskType.Interactive), ("grep", TaskType.Interactive),
    ("awk", TaskType.Interactive), ("sed", TaskType.Interactive),
    ("tmux", TaskType.Interactive), ("screen", TaskType.Interactive),
    ("htop", TaskType.Interactive), ("top", TaskType.Interactive),
    ("btop", TaskType.Interactive), ("glances", TaskType.Interactive),
    ("alacritty", TaskType.Interactive), ("kitty", TaskType.Interactive),
    ("konsole", TaskType.Interactive), ("gnome-terminal", TaskType.Interactive),
    ("terminator", TaskType.Interactive), ("yakuake", TaskType.Interactive),
    ("st", TaskType.Interactive) ]

/-- Substring containment over character lists: `pat` occurs contiguously
somewhere in `s`. -/
def listContains (s pat : List Char) : Bool :=
  if pat.isPrefixOf s then true
  else
    match s with
    | [] => false
    | _ :: rest => listContains rest pat

/-- Rust `str::contains` (substring containment), over the character lists. -/
def strContains (s pat : String) : Bool := listContains s.data pat.data

/-- Rust `str::starts_with`, over the character lists. -/
def strStartsWith (s pat : String) : Bool := pat.data.isPrefixOf s.data

/-- `TaskClassifier::classify` (`tasks.rs` lines 111-127): browser substring
check first, then exact table lookup, then prefix/substring fallback over the
table, then the `Interactive` default. -/
def classify (comm : String) : TaskType :=
  if strContains comm "firefox" || strContains comm "chrome"
      || strContains comm "chromium" then
    TaskType.Network
  else
    match patterns.find? (fun e => e.1 == comm) with
    | some e => e.2
    | none =>
      match patterns.find? (fun e => strStartsWith comm e.1 || strContains comm e.1) with
      | some e => e.2
      | none => TaskType.Interactive

/-- `TaskClassifier::is_critical` (`tasks.rs` lines 130-133). -/
def isCritical (pid : ℤ) : Bool := pid == 1

/-- `Planet::name` (`planets.rs` lines 34-44). -/
def Planet.name : Planet → String
  | Planet.Sun => "Sun"
  | Planet.Moon => "Moon"
  | Planet.Mercury => "Mercury"
  | Planet.Venus => "Venus"
  | Planet.Mars => "Mars"
  | Planet.Jupiter => "Jupiter"
  | Planet.Saturn => "Saturn"

/-- `ZodiacSign::name` (`planets.rs` lines 98-113). -/
def ZodiacSign.name : ZodiacSign → String
  | ZodiacSign.Aries => "Aries"
  | ZodiacSign.Taurus => "Taurus"
  | ZodiacSign.Gemini => "Gemini"
  | ZodiacSign.Cancer => "Cancer"
  | ZodiacSign.Leo => "Leo"
  | ZodiacSign.Virgo => "Virgo"
  | ZodiacSign.Libra => "Libra"
  | ZodiacSign.Scorpio => "Scorpio"
  | ZodiacSign.Sagittarius => "Sagittarius"
  | ZodiacSign.Capricorn => "Capricorn"
  | ZodiacSign.Aquarius => "Aquarius"
  | ZodiacSign.Pisces => "Pisces"

/-- `Element::name` (`planets.rs` lines 135-142). -/
def Element.name : Element → String
  | Element.Fire => "Fire"
  | Element.Earth => "Earth"
  | Element.Air => "Air"
  | Element.Water => "Water"

/-- `TaskType::name` (`tasks.rs` lines 31-41). -/
def TaskType.name : TaskType → String
  | TaskType.Network => "Network"
  | TaskType.CpuIntensive => "CPU-Intensive"
  | TaskType.Desktop => "Desktop/UI"
  | TaskType.MemoryHeavy => "Memory-Heavy"
  | TaskType.System => "System"
  | TaskType.Interactive => "Interactive"
  | TaskType.Critical => "Critical"

/-- `struct SchedulingDecision` (`scheduler.rs` lines 7-13). -/
structure SchedulingDecision where
  priority : ℕ
  reasoning : String
  planetaryInfluence : ℚ
  elementBoost : ℚ
  deriving DecidableEq, Repr

/-- The mutable state of `struct AstrologicalScheduler` (`scheduler.rs`
lines 16-20): the TTL-bounded snapshot cache.  The classifier field carries
no state (its pattern table is the fixed `patterns`), so it is not part of
the state. -/
structure AstrologicalScheduler where
  planetaryCache : Option (ℤ × List PlanetaryPosition)
  cacheDurationSecs : ℤ
  deriving DecidableEq, Repr

/-- `AstrologicalScheduler::new` (`scheduler.rs` lines 23-29): the cache
starts empty. -/
def AstrologicalScheduler.new (cacheDurationSecs : ℤ) : AstrologicalScheduler :=
  { planetaryCache := none, cacheDurationSecs := cacheDurationSecs }

/-- `AstrologicalScheduler::get_planetary_positions` (`scheduler.rs` lines
31-45): refresh when the cache is absent or `now - cached_time >
cache_duration_secs`, otherwise reuse the cached snapshot.  Moments are unix
timestamps in seconds. -/
def getPlanetaryPositions (E : Ephemeris) (s : AstrologicalScheduler)
    (now : ℤ) : List PlanetaryPosition × AstrologicalScheduler :=
  match s.planetaryCache with
  | none =>
    let positions := calculatePlanetaryPositions E (E.jd now)
    (positions, { s with planetaryCache := some (now, positions) })
  | some (cachedTime, cached) =>
    if now - cachedTime > s.cacheDurationSecs then
      let positions := calculatePlanetaryPositions E (E.jd now)
      (positions, { s with planetaryCache := some (now, positions) })
    else
      (cached, s)

/-- The element weight applied to a direct planet's influence (the match
inside `calculate_planetary_influence`, `scheduler.rs` lines 54-59). -/
def elementInfluence : Element → ℚ
  | Element.Fire => 13/10
  | Element.Earth => 11/10
  | Element.Air => 6/5
  | Element.Water => 1

/-- `AstrologicalScheduler::calculate_planetary_influence` (`scheduler.rs`
lines 47-60). -/
def calculatePlanetaryInfluence (position : PlanetaryPosition) : ℚ :=
  if position.retrograde then -1
  else elementInfluence position.sign.element

/-- `AstrologicalScheduler::moon_phase_modifier` (`scheduler.rs` lines
62-77). -/
def moonPhaseModifier : MoonPhase → ℚ
  | MoonPhase.FullMoon => 7/5
  | MoonPhase.WaxingGibbous => 6/5
  | MoonPhase.FirstQuarter => 11/10
  | MoonPhase.WaxingCrescent => 21/20
  | MoonPhase.NewMoon => 4/5
  | MoonPhase.WaningGibbous => 19/20
  | MoonPhase.LastQuarter => 9/10
  | MoonPhase.WaningCrescent => 17/20

/-- The affinity matrix inside `calculate_element_boost` (`scheduler.rs`
lines 89-101), keyed by the ruling planet's element and the task type. -/
def elementBoostMatrix (element : Element) (taskType : TaskType) : ℚ :=
  match element, taskType with
  | Element.Fire, TaskType.CpuIntensive => 3/2
  | Element.Air, TaskType.Network => 3/2
  | Element.Earth, TaskType.System => 7/5
  | Element.Water, TaskType.MemoryHeavy => 13/10
  | Element.Air, TaskType.Desktop => 13/10
  | Element.Water, TaskType.Desktop => 13/10
  | Element.Water, TaskType.CpuIntensive => 3/5
  | Element.Earth, TaskType.Network => 3/5
  | Element.Air, TaskType.System => 7/10
  | Element.Fire, TaskType.MemoryHeavy => 7/10
  | _, _ => 1

/-- `AstrologicalScheduler::calculate_element_boost` (`scheduler.rs` lines
79-102).  The Rust code panics (`expect`) when the ruling planet is missing
from the snapshot; that failure is `none` here. -/
def calculateElementBoost (positions : List PlanetaryPosition)
    (taskType : TaskType) : Option ℚ :=
  match positions.find? (fun p => p.planet == taskType.rulingPlanet) with
  | none => none
  | some planetPos => some (elementBoostMatrix planetPos.sign.element taskType)

/-- The `base_priority` table inside `schedule_task` (`scheduler.rs` lines
140-147). -/
def basePriority : TaskType → ℕ
  | TaskType.Critical => 1000
  | TaskType.System => 200
  | TaskType.Interactive => 150
  | TaskType.Desktop => 120
  | TaskType.CpuIntensive => 100
  | TaskType.Network => 100
  | TaskType.MemoryHeavy => 80

/-- `AstrologicalScheduler::create_reasoning` (`scheduler.rs` lines
174-239): deterministic rendering of the narrative from the already-decided
(influence, boost, task type, position) data. -/
def createReasoning (taskType : TaskType) (planetPos : PlanetaryPosition)
    (influence boost : ℚ) : String :=
  let planetName := planetPos.planet.name
  let signName := planetPos.sign.name
  let elementName := planetPos.sign.element.name
  if influence < 0 then
    "☿℞ " ++ planetName ++ " RETROGRADE in " ++ signName ++ " | "
      ++ taskType.name
      ++ " task suffers cosmic CHAOS! Communications disrupted, delays expected"
  else if boost < 7/10 then
    let opposition :=
      match planetPos.sign.element, taskType with
      | Element.Water, TaskType.CpuIntensive => "💧 Water dampens fire"
      | Element.Earth, TaskType.Network => "🪨 Earth blocks air"
      | Element.Air, TaskType.System => "💨 Air disrupts earth"
      | Element.Fire, TaskType.MemoryHeavy => "🔥 Fire evaporates water"
      | _, _ => "⚔️ Elemental opposition"
    "⚠️ " ++ planetName ++ " in " ++ signName ++ " (" ++ elementName ++ ") | "
      ++ taskType.name ++ " task DEBUFFED | " ++ opposition
  else if boost > 13/10 then
    "✨ " ++ planetName ++ " in " ++ signName ++ " (" ++ elementName ++ ") | "
      ++ taskType.name ++ " task COSMICALLY BLESSED | " ++ elementName
      ++ " provides divine boost"
  else if boost > 11/10 then
    planetName ++ " in " ++ signName ++ " | " ++ taskType.name
      ++ " task enhanced by favorable " ++ elementName ++ " energy"
  else
    planetName ++ " in " ++ signName ++ " | " ++ taskType.name
      ++ " task neutral | Cosmos balanced"

/-- `AstrologicalScheduler::schedule_task` (`scheduler.rs` lines 104-172):
the critical-pid bypass, then classification, snapshot lookup, influence,
boost (with the moon-phase modifier for Interactive tasks), priority with
the retrograde penalty and the minimum clamp, and the narrative.  The `u32`
cast of a nonnegative `f64` is `Int.toNat ∘ Int.floor`; a missing ruling
planet (a Rust panic) is `none`. -/
def scheduleTask (E : Ephemeris) (s : AstrologicalScheduler) (comm : String)
    (pid : ℤ) (now : ℤ) : Option (SchedulingDecision × AstrologicalScheduler) :=
  if isCritical pid then
    some ({ priority := 1000,
            reasoning := "☀️ Sun rules all - PID " ++ toString pid
              ++ " is CRITICAL (init)",
            planetaryInfluence := 1,
            elementBoost := 2 }, s)
  else
    let taskType := classify comm
    let pos := getPlanetaryPositions E s now
    match pos.1.find? (fun p => p.planet == taskType.rulingPlanet) with
    | none => none
    | some planetPos =>
      match calculateElementBoost pos.1 taskType with
      | none => none
      | some boost0 =>
        let planetaryInfluence := calculatePlanetaryInfluence planetPos
        let elementBoost :=
          if taskType = TaskType.Interactive then
            match pos.1.find? (fun p => p.planet == Planet.Moon) with
            | some moonPos =>
              match moonPos.moonPhase with
              | some phase => boost0 * moonPhaseModifier phase
              | none => boost0
            | none => boost0
          else boost0
        let influencedPriority : ℕ :=
          if 0 ≤ planetaryInfluence then
            (⌊(basePriority taskType : ℚ) * planetaryInfluence * elementBoost⌋).toNat
          else
            (⌊(basePriority taskType : ℚ) * (3/10)⌋).toNat
        some ({ priority := max influencedPriority 1,
                reasoning := createReasoning taskType planetPos
                  planetaryInfluence elementBoost,
                planetaryInfluence := planetaryInfluence,
                elementBoost := elementBoost }, pos.2)

/-- The time-slice computation of the dispatch shim
(`main.rs` lines 140-155), in nanoseconds: the priority is mapped to a
clamped factor, interpolated between the minimum and the default slice, and
halved when retrograde effects are enabled and the influence is negative.
`sliceUs` and `sliceUsMin` are the configured slice durations in
microseconds. -/
def dispatchSliceNs (sliceUs sliceUsMin : ℕ) (priority : ℕ) (influence : ℚ)
    (noRetrograde : Bool) : ℕ :=
  let priorityFactor : ℚ := min (max ((priority : ℚ) / 1000) (1/10)) 1
  let baseSlice : ℚ := ((sliceUs * 1000 : ℕ) : ℚ)
  let minSlice : ℚ := ((sliceUsMin * 1000 : ℕ) : ℚ)
  let sliceNs : ℕ := (⌊minSlice + (baseSlice - minSlice) * priorityFactor⌋).toNat
  if !noRetrograde && decide (influence < 0) then
    (⌊(sliceNs : ℚ) * (1/2)⌋).toNat
  else
    sliceNs

/-- The time-slice rule exactly as §6 of the spec words it (refinement
reference for C8): `factor = clamp(priority/1000, 0.1, 1.0)`;
`slice = min_slice + (max_slice − min_slice) × factor`; then, if retrograde
effects are enabled and the influence is negative, `slice *= 0.5`. -/
def specSliceFormula (minSlice maxSlice : ℚ) (priority : ℕ) (influence : ℚ)
    (retroEnabled : Bool) : ℚ :=
  let factor := min (max ((priority : ℚ) / 1000) (1/10)) 1
  let slice := minSlice + (maxSlice - minSlice) * factor
  if retroEnabled && decide (influence < 0) then slice * (1/2) else slice

/-- A scheduler state whose cached snapshot, if any, was built by the
snapshot builder for its recorded capture moment — the only cache contents
the Rust engine can ever hold. -/
def ValidCache (E : Ephemeris) (s : AstrologicalScheduler) : Prop :=
  ∀ t ps, s.planetaryCache = some (t, ps) →
    ps = calculatePlanetaryPositions E (E.jd t)

/-- The decision produced by a `scheduleTask` result has priority at most
`n` (vacuous on the panic outcome `none`). -/
def decisionPriorityLe
    (o : Option (SchedulingDecision × AstrologicalScheduler)) (n : ℕ) : Prop :=
  match o with
  | none => True
  | some r => r.1.priority ≤ n

/-- The decision produced by a `scheduleTask` result has priority strictly
below `n` (vacuous on the panic outcome `none`). -/
def decisionPriorityLt
    (o : Option (SchedulingDecision × AstrologicalScheduler)) (n : ℕ) : Prop :=
  match o with
  | none => True
  | some r => r.1.priority < n

/-- The parts of the scoring rule that hold of the `f64` program (not only
of the exact-rational idealization): the retrograde penalty
`floor(base × 0.3)` ignoring the boost when the influence is negative
(float-exact, see `C3_amended_priority_computation`) and the minimum-1
clamp (vacuous on the panic outcome `none`). -/
def priorityPenaltyClampHolds
    (o : Option (SchedulingDecision × AstrologicalScheduler))
    (tt : TaskType) : Prop :=
  match o with
  | none => True
  | some r =>
    (r.1.planetaryInfluence < 0 →
      r.1.priority = max (⌊(basePriority tt : ℚ) * (3/10)⌋).toNat 1) ∧
    1 ≤ r.1.priority

/-- Round a rational to the nearest integer, ties to even — the IEEE-754
default rounding applied by every Rust `f64` arithmetic operation. -/
def roundNearestEven (x : ℚ) : ℤ :=
  if Int.fract x < 1/2 then ⌊x⌋
  else if 1/2 < Int.fract x then ⌊x⌋ + 1
  else if ⌊x⌋ % 2 = 0 then ⌊x⌋ else ⌊x⌋ + 1

/-- Binary64 rounding of a positive rational lying in the binade
`[2^(52-s), 2^(53-s))`: with a 53-bit significand the representable
binary64 values there are exactly the integer multiples of `2^(-s)`, and
the nearest one (ties to even) is returned.  Each use site carries the
binade bounds as explicit conjuncts. -/
def f64RoundScaled (s : ℕ) (q : ℚ) : ℚ :=
  (roundNearestEven (q * 2 ^ s) : ℚ) / 2 ^ s

/-- The binary64 value of the Rust literal `1.1` (bit pattern
`0x3FF199999999999A`), the nearest double to 11/10 (within half an ulp,
proved in `C3_counterexample`). -/
def f64Lit11 : ℚ := 4953959590107546 / 2 ^ 52

/-- The binary64 value of the Rust literal `1.4` (bit pattern
`0x3FF6666666666666`), the nearest double to 7/5 (within half an ulp,
proved in `C3_counterexample`). -/
def f64Lit14 : ℚ := 6305039478318694 / 2 ^ 52

/-- The binary64 value of the Rust literal `0.3` (bit pattern
`0x3FD3333333333333`), the nearest double to 3/10. -/
def f64Lit03 : ℚ := 5404319552844595 / 2 ^ 54

/-! ## Helper lemmas -/

theorem remEuclid_eq_fract (l : ℚ) : remEuclid l 360 = 360 * Int.fract (l / 360) := by
  unfold remEuclid Int.fract
  field_simp

theorem remEuclid_nonneg (l : ℚ) : 0 ≤ remEuclid l 360 := by
  rw [remEuclid_eq_fract]
  have := Int.fract_nonneg (l / 360)
  positivity

theorem remEuclid_lt (l : ℚ) : remEuclid l 360 < 360 := by
  rw [remEuclid_eq_fract]
  have h := Int.fract_lt_one (l / 360)
  nlinarith

theorem remEuclid_add_int_mul (l : ℚ) (k : ℤ) :
    remEuclid (l + 360 * k) 360 = remEuclid l 360 := by
  unfold remEuclid
  have h : (l + 360 * k) / 360 = l / 360 + k := by ring
  rw [h, Int.floor_add_int]
  push_cast
  ring

theorem bandIndex_eq_floor_div (l : ℚ) :
    (bandIndex l : ℤ) = ⌊remEuclid l 360 / 30⌋ := by
  have hx : (0 : ℚ) ≤ remEuclid l 360 := remEuclid_nonneg l
  have hdiv : (0 : ℚ) ≤ remEuclid l 360 / 30 := by positivity
  rw [bandIndex, Int.floor_toNat, ← Int.natCast_floor_eq_floor hdiv,
    Nat.floor_div_ofNat]

/-! ## C1: directional-detection rule -/

/-- C1 counterexample: the claim states that `delta > 180` means NOT
retrograde (with `delta = +200` giving not retrograde), but the code
(`is_retrograde`, `planets.rs` lines 226-236) classifies `delta = +200`
as retrograde: with today's longitude 100 and tomorrow's 300 the delta is
`+200 > 180` and the code returns `true` (retrograde), not `false`. -/
theorem C1_counterexample :
    ((300 : ℚ) - 100 = 200) ∧ ((200 : ℚ) > 180) ∧
    retrogradeRule 100 300 ≠ false ∧
    isRetrograde ⟨fun _ j => if j = 0 then 100 else 300, fun t => (t : ℚ)⟩
      Planet.Mars 0 = true := by
  refine ⟨by norm_num, by norm_num, ?_, ?_⟩
  · norm_num [retrogradeRule]
  · norm_num [isRetrograde, retrogradeRule, remEuclid]

/-- C1 (amended): for every ordinary body, with
`delta = longitude(moment+1day) − longitude(moment)` over the normalized
longitudes, the code classifies the body RETROGRADE when `delta > 180`
(backward wrap across the 360°/0° seam), NOT retrograde when
`delta < −180` (forward wrap across the seam), and otherwise retrograde
iff `delta < 0`; so `delta = +200` gives retrograde, `delta = −200` gives
not retrograde, `delta = +10` not retrograde, `delta = −10` retrograde,
and `delta = 0` not retrograde. -/
theorem C1_amended_directional_rule :
    (∀ lonToday lonTomorrow : ℚ,
      (lonTomorrow - lonToday > 180 →
        retrogradeRule lonToday lonTomorrow = true) ∧
      (lonTomorrow - lonToday < -180 →
        retrogradeRule lonToday lonTomorrow = false) ∧
      (-180 ≤ lonTomorrow - lonToday → lonTomorrow - lonToday ≤ 180 →
        (retrogradeRule lonToday lonTomorrow = true ↔
          lonTomorrow - lonToday < 0))) ∧
    retrogradeRule 0 200 = true ∧ retrogradeRule 200 0 = false ∧
    retrogradeRule 0 10 = false ∧ retrogradeRule 10 0 = true ∧
    retrogradeRule 0 0 = false := by
  refine ⟨fun lonToday lonTomorrow => ⟨?_, ?_, ?_⟩, ?_, ?_, ?_, ?_, ?_⟩
  · intro h
    simp [retrogradeRule, h]
  · intro h
    have h1 : ¬ (lonTomorrow - lonToday > 180) := by linarith
    simp [retrogradeRule, h1, h]
  · intro h1 h2
    have ha : ¬ (lonTomorrow - lonToday > 180) := by linarith
    have hb : ¬ (lonTomorrow - lonToday < -180) := by linarith
    simp [retrogradeRule, ha, hb]
  · norm_num [retrogradeRule]
  · norm_num [retrogradeRule]
  · norm_num [retrogradeRule]
  · norm_num [retrogradeRule]
  · norm_num [retrogradeRule]

/-- C1 witness: the amended rule instantiated at longitudes 100 → 300
(`delta = +200 > 180`), where the body is classified retrograde. -/
theorem C1_amended_witness :
    ((300 : ℚ) - 100 > 180) ∧ retrogradeRule 100 300 = true :=
  ⟨by norm_num, (C1_amended_directional_rule.1 100 300).1 (by norm_num)⟩

/-! ## C7: band periodicity and boundaries -/

/-- C7: `ZodiacSign::from_longitude` bands by `floor((L mod 360) / 30)`
(the code's `as u32` truncation of the normalized longitude followed by
division by 30 equals the floor of the quotient), is 360-periodic for every
rational longitude and every integer number of turns, and maps 0 to the
first band (Aries), 30 to the second (Taurus), 359.999 to the twelfth
(Pisces), and 360 back to the first (Aries). -/
theorem C7_band_periodicity_and_boundaries :
    (∀ (l : ℚ) (k : ℤ),
      ZodiacSign.fromLongitude (l + 360 * k) = ZodiacSign.fromLongitude l) ∧
    (∀ l : ℚ, (bandIndex l : ℤ) = ⌊remEuclid l 360 / 30⌋) ∧
    ZodiacSign.fromLongitude 0 = ZodiacSign.Aries ∧
    ZodiacSign.fromLongitude 30 = ZodiacSign.Taurus ∧
    ZodiacSign.fromLongitude (359999/1000) = ZodiacSign.Pisces ∧
    ZodiacSign.fromLongitude 360 = ZodiacSign.Aries := by
  refine ⟨?_, bandIndex_eq_floor_div, ?_, ?_, ?_, ?_⟩
  · intro l k
    unfold ZodiacSign.fromLongitude bandIndex
    rw [remEuclid_add_int_mul]
  · have h1 : remEuclid (0 : ℚ) 360 = 0 := by norm_num [remEuclid]
    have h : bandIndex (0 : ℚ) = 0 := by rw [bandIndex, h1]; norm_num
    simp [ZodiacSign.fromLongitude, h]
  · have h1 : remEuclid (30 : ℚ) 360 = 30 := by norm_num [remEuclid]
    have h : bandIndex (30 : ℚ) = 1 := by rw [bandIndex, h1]; norm_num; decide
    simp [ZodiacSign.fromLongitude, h]
  · have h1 : remEuclid (359999/1000 : ℚ) 360 = 359999/1000 := by
      norm_num [remEuclid]
    have h : bandIndex (359999/1000 : ℚ) = 11 := by rw [bandIndex, h1]; norm_num; decide
    simp [ZodiacSign.fromLongitude, h]
  · have h1 : remEuclid (360 : ℚ) 360 = 0 := by norm_num [remEuclid]
    have h : bandIndex (360 : ℚ) = 0 := by rw [bandIndex, h1]; norm_num
    simp [ZodiacSign.fromLongitude, h]

theorem find_calcPositions (E : Ephemeris) (j : ℚ) (p : Planet) :
    ∃ rec : PlanetaryPosition,
      (calculatePlanetaryPositions E j).find? (fun r => r.planet == p) =
        some rec := by
  cases p <;> exact ⟨_, rfl⟩

/-! ## C8: time-slice mapping in the dispatch shim -/

/-- C8: the dispatch shim's slice computation agrees, for every
configuration, priority, influence and retrograde toggle, with the spec's
formula: `factor = clamp(priority/1000, 0.1, 1.0)`,
`slice = min_slice + (max_slice − min_slice) × factor`, halved when
retrograde effects are enabled and the directional influence is negative
(the shim's intermediate integer truncation does not change the result). -/
theorem C8_dispatch_slice :
    ∀ (sliceUs sliceUsMin priority : ℕ) (influence : ℚ) (noRetrograde : Bool),
      dispatchSliceNs sliceUs sliceUsMin priority influence noRetrograde =
        (⌊specSliceFormula ((sliceUsMin * 1000 : ℕ) : ℚ)
          ((sliceUs * 1000 : ℕ) : ℚ) priority influence (!noRetrograde)⌋).toNat := by
  intro su sm p infl nr
  simp only [dispatchSliceNs, specSliceFormula]
  by_cases hc : (!nr && decide (infl < 0)) = true
  · rw [if_pos hc, if_pos hc, Int.floor_toNat, Int.floor_toNat, Int.floor_toNat,
      mul_one_div, mul_one_div, Nat.floor_div_ofNat, Nat.floor_div_ofNat,
      Nat.floor_natCast]
  · rw [if_neg hc, if_neg hc]

/-! ## C5: cache TTL semantics -/

/-- C5: with a snapshot captured at moment `t` in the cache, a request at
`t + d` with `d ≤ ttl` reuses exactly the cached snapshot and leaves the
state unchanged, while `d > ttl` discards it and rebuilds a fresh snapshot
for the new moment; the cache starts empty at engine construction and is
populated lazily by the first (non-critical) decision request. -/
theorem C5_cache_ttl_semantics :
    (∀ (E : Ephemeris) (ttl t d : ℤ) (ps : List PlanetaryPosition),
      d ≤ ttl →
      getPlanetaryPositions E ⟨some (t, ps), ttl⟩ (t + d) =
        (ps, ⟨some (t, ps), ttl⟩)) ∧
    (∀ (E : Ephemeris) (ttl t d : ℤ) (ps : List PlanetaryPosition),
      d > ttl →
      getPlanetaryPositions E ⟨some (t, ps), ttl⟩ (t + d) =
        (calculatePlanetaryPositions E (E.jd (t + d)),
         ⟨some (t + d, calculatePlanetaryPositions E (E.jd (t + d))), ttl⟩)) ∧
    (∀ ttl : ℤ, (AstrologicalScheduler.new ttl).planetaryCache = none) ∧
    (∀ (E : Ephemeris) (ttl : ℤ) (comm : String) (pid now : ℤ), pid ≠ 1 →
      (scheduleTask E (AstrologicalScheduler.new ttl) comm pid now).map
          (fun r => r.2) =
        some ⟨some (now, calculatePlanetaryPositions E (E.jd now)), ttl⟩) := by
  refine ⟨?_, ?_, fun _ => rfl, ?_⟩
  · intro E ttl t d ps h
    simp only [getPlanetaryPositions]
    rw [if_neg (by omega)]
  · intro E ttl t d ps h
    simp only [getPlanetaryPositions]
    rw [if_pos (by omega)]
  · intro E ttl comm pid now hpid
    have e : isCritical pid = false := by simp [isCritical, hpid]
    obtain ⟨rec, hrec⟩ := find_calcPositions E (E.jd now) (classify comm).rulingPlanet
    simp only [scheduleTask, e, Bool.false_eq_true, if_false,
      getPlanetaryPositions, AstrologicalScheduler.new, calculateElementBoost,
      hrec]
    rfl

/-- C5 witness: TTL 300 with a snapshot captured at moment 0 — a request
at moment 100 reuses it, a request at moment 301 rebuilds, and a first
decision request on a fresh engine populates the cache. -/
theorem C5_witness :
    getPlanetaryPositions ⟨fun _ _ => 0, fun _ => 0⟩ ⟨some (0, []), 300⟩
        (0 + 100) = ([], ⟨some (0, []), 300⟩) ∧
    getPlanetaryPositions ⟨fun _ _ => 0, fun _ => 0⟩ ⟨some (0, []), 300⟩
        (0 + 301) =
      (calculatePlanetaryPositions ⟨fun _ _ => 0, fun _ => 0⟩
        (Ephemeris.jd ⟨fun _ _ => 0, fun _ => 0⟩ (0 + 301)),
       ⟨some (0 + 301, calculatePlanetaryPositions ⟨fun _ _ => 0, fun _ => 0⟩
        (Ephemeris.jd ⟨fun _ _ => 0, fun _ => 0⟩ (0 + 301))), 300⟩) ∧
    (scheduleTask ⟨fun _ _ => 0, fun _ => 0⟩ (AstrologicalScheduler.new 300)
        "bash" 2 0).map (fun r => r.2) =
      some ⟨some (0, calculatePlanetaryPositions ⟨fun _ _ => 0, fun _ => 0⟩
        (Ephemeris.jd ⟨fun _ _ => 0, fun _ => 0⟩ 0)), 300⟩ :=
  ⟨C5_cache_ttl_semantics.1 _ 300 0 100 [] (by decide),
   C5_cache_ttl_semantics.2.1 _ 300 0 301 [] (by decide),
   C5_cache_ttl_semantics.2.2.2 _ 300 "bash" 2 0 (by decide)⟩

/-! ## C6: classifier staged lookup -/

/-- C6: `classify` returns Network for any identifier containing a
well-known browser name (checked before anything else), and on the staged
exact-match / prefix-or-substring-fallback / default pipeline it maps
"firefox" to Network, "rustc" to CPU-bound (exact match),
"kworker/0:1" to System (prefix match), and "totally_unknown_xyz" to
Interactive (default). -/
theorem C6_classifier_staged_lookup :
    (∀ comm : String,
      (strContains comm "firefox" || strContains comm "chrome"
        || strContains comm "chromium") = true →
      classify comm = TaskType.Network) ∧
    classify "firefox" = TaskType.Network ∧
    classify "rustc" = TaskType.CpuIntensive ∧
    classify "kworker/0:1" = TaskType.System ∧
    classify "totally_unknown_xyz" = TaskType.Interactive := by
  refine ⟨?_, by decide, by decide, by decide, by decide⟩
  intro comm h
  simp [classify, h]

/-- C6 witness: the browser-substring rule instantiated at "firefox". -/
theorem C6_witness :
    (strContains "firefox" "firefox" || strContains "firefox" "chrome"
      || strContains "firefox" "chromium") = true ∧
    classify "firefox" = TaskType.Network :=
  ⟨by decide, C6_classifier_staged_lookup.1 "firefox" (by decide)⟩

/-! ## C4: critical bypass -/

/-- C4: for every identifier, moment, ephemeris and scheduler state, a
`schedule_task` call with the reserved init pid 1 returns priority 1000,
directional influence 1.0 and affinity boost 2.0, and leaves the state
(hence the cache) untouched — no classification or astronomical
computation is performed. -/
theorem C4_critical_bypass :
    ∀ (E : Ephemeris) (s : AstrologicalScheduler) (comm : String) (now : ℤ),
      scheduleTask E s comm 1 now =
        some ({ priority := 1000,
                reasoning := "☀️ Sun rules all - PID " ++ toString (1 : ℤ)
                  ++ " is CRITICAL (init)",
                planetaryInfluence := 1,
                elementBoost := 2 }, s) := by
  intro E s comm now
  rfl

/-! ## C2: deterministic scoring -/

/-- C2: `schedule_task` is a deterministic function of its inputs and the
engine state — two evaluations with the same identifier, pid, moment,
ephemeris and the same state (in particular the same cached snapshot)
return the same full result, and hence the same priority, directional
influence and affinity boost. -/
theorem C2_deterministic_scoring :
    ∀ (E : Ephemeris) (comm : String) (pid now : ℤ)
      (s1 s2 : AstrologicalScheduler), s1 = s2 →
      scheduleTask E s1 comm pid now = scheduleTask E s2 comm pid now ∧
      (scheduleTask E s1 comm pid now).map
          (fun r => (r.1.priority, r.1.planetaryInfluence, r.1.elementBoost)) =
        (scheduleTask E s2 comm pid now).map
          (fun r => (r.1.priority, r.1.planetaryInfluence, r.1.elementBoost)) := by
  intro E comm pid now s1 s2 h
  subst h
  exact ⟨rfl, rfl⟩

/-- C2 witness: determinism instantiated at the fallback-resolved
identifier "kworker/0:1" on a fresh engine. -/
theorem C2_witness :
    scheduleTask ⟨fun _ _ => 0, fun _ => 0⟩ (AstrologicalScheduler.new 300)
        "kworker/0:1" 2 0 =
      scheduleTask ⟨fun _ _ => 0, fun _ => 0⟩ (AstrologicalScheduler.new 300)
        "kworker/0:1" 2 0 :=
  (C2_deterministic_scoring ⟨fun _ _ => 0, fun _ => 0⟩ "kworker/0:1" 2 0
    (AstrologicalScheduler.new 300) (AstrologicalScheduler.new 300) rfl).1

/-! ## C3: priority computation -/

/-- C3 counterexample: at a reachable input — an Interactive task while the
Moon is direct in an Earth band during the Full Moon phase band, giving
base weight 150, influence 1.1 and boost 1.0 × 1.4 — the claimed priority
`floor(base_weight × influence × boost) = floor(150 × 1.1 × 1.4)` is 231,
but the Rust program evaluates the product in `f64`, left-associated with
binary64 round-to-nearest-even at each step: `150.0 * 1.1` rounds to
`5805421394657280 / 2^45` and multiplying by the double `1.4` rounds to
`8127589952520191 / 2^45 = 230.99999999999997`, whose `as u32` truncation
is 230 — one below the claimed floor.  The conjuncts also establish that
the doubles used for `1.1` and `1.4` are the correctly rounded binary64
literals (within half an ulp of 11/10 and 7/5) and that each product lies
in the binade `[2^7, 2^8)` assumed by the scaled rounding. -/
theorem C3_counterexample :
    classify "bash" = TaskType.Interactive ∧
    basePriority TaskType.Interactive = 150 ∧
    elementInfluence Element.Earth = 11 / 10 ∧
    elementBoostMatrix Element.Earth TaskType.Interactive *
      moonPhaseModifier MoonPhase.FullMoon = 7 / 5 ∧
    ⌊(150 : ℚ) * (11 / 10) * (7 / 5)⌋ = 231 ∧
    |11 / 10 - f64Lit11| ≤ 1 / 2 ^ 53 ∧
    |7 / 5 - f64Lit14| ≤ 1 / 2 ^ 53 ∧
    2 ^ 7 ≤ (150 : ℚ) * f64Lit11 ∧ (150 : ℚ) * f64Lit11 < 2 ^ 8 ∧
    f64RoundScaled 45 ((150 : ℚ) * f64Lit11) = 5805421394657280 / 2 ^ 45 ∧
    2 ^ 7 ≤ (5805421394657280 / 2 ^ 45 : ℚ) * f64Lit14 ∧
    (5805421394657280 / 2 ^ 45 : ℚ) * f64Lit14 < 2 ^ 8 ∧
    f64RoundScaled 45 ((5805421394657280 / 2 ^ 45 : ℚ) * f64Lit14) =
      8127589952520191 / 2 ^ 45 ∧
    (⌊(8127589952520191 / 2 ^ 45 : ℚ)⌋).toNat = 230 := by
  refine ⟨by decide, rfl, rfl, ?_, ?_, ?_, ?_, ?_, ?_, ?_, ?_, ?_, ?_, ?_⟩
  · norm_num [elementBoostMatrix, moonPhaseModifier]
  · norm_num
  · norm_num [f64Lit11, abs_le]
  · norm_num [f64Lit14, abs_le]
  · norm_num [f64Lit11]
  · norm_num [f64Lit11]
  · norm_num [f64RoundScaled, roundNearestEven, Int.fract, f64Lit11]
  · norm_num [f64Lit14]
  · norm_num [f64Lit14]
  · norm_num [f64RoundScaled, roundNearestEven, Int.fract, f64Lit14]
  · norm_num
    decide

/-- C3 (amended): for every call with pid other than the init id, when the
computed directional influence is negative (governing body retrograde) the
priority equals `floor(base_weight(category) × 0.3)` with the boost ignored
entirely — and this value is float-exact: for every non-critical base
weight the binary64 product `base × 0.3` rounds to the exact integer, so
the `f64` program and the rational floor agree there — and in both branches
the result is clamped to a minimum of 1, so every decision's priority
is ≥ 1; when the influence is nonnegative the program's priority is the
`u32` truncation of the left-associated binary64 product
`base_weight × influence × boost`, which can fall one below the exact
`floor(base_weight × influence × boost)` (230 against 231 at base 150,
influence 1.1, boost 1.4). -/
theorem C3_amended_priority_computation :
    (∀ (E : Ephemeris) (s : AstrologicalScheduler) (comm : String)
      (pid now : ℤ), pid ≠ 1 →
      priorityPenaltyClampHolds (scheduleTask E s comm pid now)
        (classify comm)) ∧
    ((2 : ℚ) ^ 4 ≤ (80 : ℚ) * f64Lit03 ∧ (80 : ℚ) * f64Lit03 < 2 ^ 5 ∧
      f64RoundScaled 48 ((80 : ℚ) * f64Lit03) = 24 ∧
      ⌊(80 : ℚ) * (3 / 10)⌋ = 24) ∧
    ((2 : ℚ) ^ 4 ≤ (100 : ℚ) * f64Lit03 ∧ (100 : ℚ) * f64Lit03 < 2 ^ 5 ∧
      f64RoundScaled 48 ((100 : ℚ) * f64Lit03) = 30 ∧
      ⌊(100 : ℚ) * (3 / 10)⌋ = 30) ∧
    ((2 : ℚ) ^ 5 ≤ (120 : ℚ) * f64Lit03 ∧ (120 : ℚ) * f64Lit03 < 2 ^ 6 ∧
      f64RoundScaled 47 ((120 : ℚ) * f64Lit03) = 36 ∧
      ⌊(120 : ℚ) * (3 / 10)⌋ = 36) ∧
    ((2 : ℚ) ^ 5 ≤ (150 : ℚ) * f64Lit03 ∧ (150 : ℚ) * f64Lit03 < 2 ^ 6 ∧
      f64RoundScaled 47 ((150 : ℚ) * f64Lit03) = 45 ∧
      ⌊(150 : ℚ) * (3 / 10)⌋ = 45) ∧
    ((2 : ℚ) ^ 5 ≤ (200 : ℚ) * f64Lit03 ∧ (200 : ℚ) * f64Lit03 < 2 ^ 6 ∧
      f64RoundScaled 47 ((200 : ℚ) * f64Lit03) = 60 ∧
      ⌊(200 : ℚ) * (3 / 10)⌋ = 60) ∧
    ((⌊f64RoundScaled 45 (f64RoundScaled 45 ((150 : ℚ) * f64Lit11) *
        f64Lit14)⌋).toNat = 230 ∧
      ⌊(150 : ℚ) * (11 / 10) * (7 / 5)⌋ = 231) := by
  refine ⟨?_, ?_, ?_, ?_, ?_, ?_, ?_⟩
  · intro E s comm pid now hpid
    have e : isCritical pid = false := by simp [isCritical, hpid]
    simp only [scheduleTask, e, Bool.false_eq_true, if_false]
    split
    · trivial
    · split
      · trivial
      · refine ⟨fun h => ?_, le_max_right _ 1⟩
        simp only [priorityPenaltyClampHolds]
        rw [if_neg (not_le.mpr h)]
  · norm_num [f64RoundScaled, roundNearestEven, Int.fract, f64Lit03]
  · norm_num [f64RoundScaled, roundNearestEven, Int.fract, f64Lit03]
  · norm_num [f64RoundScaled, roundNearestEven, Int.fract, f64Lit03]
  · norm_num [f64RoundScaled, roundNearestEven, Int.fract, f64Lit03]
  · norm_num [f64RoundScaled, roundNearestEven, Int.fract, f64Lit03]
  · norm_num [f64RoundScaled, roundNearestEven, Int.fract, f64Lit11, f64Lit14]
    decide

/-- C3 witness: the amended structural rule instantiated on a fresh engine
at identifier "bash" with pid 2. -/
theorem C3_amended_witness :
    priorityPenaltyClampHolds
      (scheduleTask ⟨fun _ _ => 0, fun _ => 0⟩ (AstrologicalScheduler.new 300)
        "bash" 2 0) (classify "bash") :=
  C3_amended_priority_computation.1 ⟨fun _ _ => 0, fun _ => 0⟩
    (AstrologicalScheduler.new 300) "bash" 2 0 (by decide)

/-! ## C10: pid noninterference off the critical path -/

/-- C10: for every identifier, moment, ephemeris and state, any two pids
both different from the reserved init id 1 produce identical
`schedule_task` results (same priority, influence, boost, narrative and
resulting state) — the pid only enters through the `is_critical` check. -/
theorem C10_pid_noninterference :
    ∀ (E : Ephemeris) (s : AstrologicalScheduler) (comm : String)
      (now p1 p2 : ℤ), p1 ≠ 1 → p2 ≠ 1 →
      scheduleTask E s comm p1 now = scheduleTask E s comm p2 now := by
  intro E s comm now p1 p2 h1 h2
  have e1 : isCritical p1 = false := by simp [isCritical, h1]
  have e2 : isCritical p2 = false := by simp [isCritical, h2]
  simp only [scheduleTask, e1, e2, Bool.false_eq_true, if_false]

/-- C10 witness: pids 2 and 3 on a fresh engine at identifier "vim". -/
theorem C10_witness :
    scheduleTask ⟨fun _ _ => 0, fun _ => 0⟩ (AstrologicalScheduler.new 300)
        "vim" 2 0 =
      scheduleTask ⟨fun _ _ => 0, fun _ => 0⟩ (AstrologicalScheduler.new 300)
        "vim" 3 0 :=
  C10_pid_noninterference ⟨fun _ _ => 0, fun _ => 0⟩
    (AstrologicalScheduler.new 300) "vim" 0 2 3 (by decide) (by decide)

/-! ## C9: non-critical priority bound -/

set_option maxRecDepth 4000 in
theorem patterns_no_critical : ∀ x ∈ patterns, x.2 ≠ TaskType.Critical := by
  decide

theorem classify_ne_critical (comm : String) :
    classify comm ≠ TaskType.Critical := by
  unfold classify
  split
  · intro h
    cases h
  · split
    · rename_i e heq
      exact patterns_no_critical e (List.mem_of_find?_eq_some heq)
    · split
      · rename_i e heq
        exact patterns_no_critical e (List.mem_of_find?_eq_some heq)
      · intro h
        cases h

theorem toNat_floor_le {q : ℚ} {n : ℕ} (h : q ≤ (n : ℚ)) :
    (⌊q⌋).toNat ≤ n := by
  rw [Int.toNat_le]
  exact le_trans (Int.floor_le_floor h) (le_of_eq (Int.floor_natCast n))

theorem influenced_priority_le_308 (tt : TaskType) (rec : PlanetaryPosition)
    (boost : ℚ) (htt : tt ≠ TaskType.Critical)
    (hb : boost = elementBoostMatrix rec.sign.element tt ∨
      (tt = TaskType.Interactive ∧ ∃ φ : MoonPhase,
        boost = elementBoostMatrix rec.sign.element tt * moonPhaseModifier φ)) :
    max (if 0 ≤ calculatePlanetaryInfluence rec then
        (⌊(basePriority tt : ℚ) * calculatePlanetaryInfluence rec * boost⌋).toNat
      else (⌊(basePriority tt : ℚ) * (3/10)⌋).toNat) 1 ≤ 308 := by
  apply max_le _ (by norm_num)
  unfold calculatePlanetaryInfluence
  by_cases hr : rec.retrograde
  · rw [if_pos hr, if_neg (by norm_num)]
    apply toNat_floor_le
    cases tt <;> first
      | exact absurd rfl htt
      | norm_num [basePriority]
  · rw [if_neg hr]
    revert hb
    generalize rec.sign.element = e
    intro hb
    rw [if_pos (by cases e <;> norm_num [elementInfluence])]
    apply toNat_floor_le
    rcases hb with hb | ⟨hint, φ, hb⟩
    · subst hb
      cases tt <;> first
        | exact absurd rfl htt
        | cases e <;> norm_num [basePriority, elementInfluence, elementBoostMatrix]
    · subst hint
      subst hb
      cases e <;> cases φ <;>
        norm_num [basePriority, elementInfluence, elementBoostMatrix,
          moonPhaseModifier]

theorem scheduleTask_priority_le_308 (E : Ephemeris)
    (s : AstrologicalScheduler) (comm : String) (pid now : ℤ)
    (hpid : pid ≠ 1) :
    decisionPriorityLe (scheduleTask E s comm pid now) 308 := by
  have ec : isCritical pid = false := by simp [isCritical, hpid]
  simp only [scheduleTask, ec, Bool.false_eq_true, if_false]
  split
  · trivial
  · rename_i planetPos heq1
    split
    · trivial
    · rename_i boost0 heq2
      have hb0 : boost0 =
          elementBoostMatrix planetPos.sign.element (classify comm) := by
        rw [calculateElementBoost, heq1] at heq2
        exact (Option.some_inj.mp heq2).symm
      simp only [decisionPriorityLe]
      apply influenced_priority_le_308 (classify comm) planetPos _
        (classify_ne_critical comm)
      split
      · rename_i hi
        split
        · split
          · rename_i phase hph
            right
            exact ⟨hi, phase, by rw [hb0]⟩
          · left
            exact hb0
        · left
          exact hb0
      · left
        exact hb0

/-- C9: off the critical path (pid ≠ 1) every decision's priority is at
most 308 — the maximum `floor(200 × 1.1 × 1.4)`, attained by a System task
whose governing body is direct in an Earth band — and in particular
strictly below 1000, so priority 1000 uniquely identifies the pid-1
critical bypass. -/
theorem C9_noncritical_priority_bounded :
    (∀ (E : Ephemeris) (s : AstrologicalScheduler) (comm : String)
      (pid now : ℤ), pid ≠ 1 →
      decisionPriorityLe (scheduleTask E s comm pid now) 308 ∧
      decisionPriorityLt (scheduleTask E s comm pid now) 1000) ∧
    (scheduleTask ⟨fun _ _ => 30, fun _ => 0⟩ (AstrologicalScheduler.new 300)
      "systemd" 2 0).map (fun r => r.1.priority) = some 308 := by
  constructor
  · intro E s comm pid now hpid
    have hle := scheduleTask_priority_le_308 E s comm pid now hpid
    refine ⟨hle, ?_⟩
    rcases hsch : scheduleTask E s comm pid now with _ | r
    · trivial
    · rw [hsch] at hle
      exact lt_of_le_of_lt hle (by norm_num)
  · have hcrit : isCritical 2 = false := by decide
    have hc : classify "systemd" = TaskType.System := by decide
    have h30 : remEuclid (30 : ℚ) 360 = 30 := by norm_num [remEuclid]
    have hretro : retrogradeRule 30 30 = false := by norm_num [retrogradeRule]
    have hb : bandIndex (30 : ℚ) = 1 := by
      rw [bandIndex, h30]
      norm_num
      decide
    have hsign : ZodiacSign.fromLongitude (30 : ℚ) = ZodiacSign.Taurus := by
      simp [ZodiacSign.fromLongitude, hb]
    have hphase : MoonPhase.fromAngle (remEuclid (0 : ℚ) 360) =
        MoonPhase.NewMoon := by
      norm_num [MoonPhase.fromAngle, remEuclid]
    have e1 : (Planet.Sun == Planet.Saturn) = false := by decide
    have e2 : (Planet.Mercury == Planet.Saturn) = false := by decide
    have e3 : (Planet.Venus == Planet.Saturn) = false := by decide
    have e4 : (Planet.Mars == Planet.Saturn) = false := by decide
    have e5 : (Planet.Jupiter == Planet.Saturn) = false := by decide
    have e6 : (Planet.Saturn == Planet.Saturn) = true := by decide
    simp [scheduleTask, hcrit, hc, getPlanetaryPositions,
      AstrologicalScheduler.new, calculatePlanetaryPositions, isRetrograde,
      h30, hretro, hsign, hphase, List.find?, calculateElementBoost,
      elementBoostMatrix, elementInfluence, calculatePlanetaryInfluence,
      ZodiacSign.element, basePriority, TaskType.rulingPlanet,
      e1, e2, e3, e4, e5, e6]
    have h308 : ⌊(200 : ℚ) * (11 / 10) * (7 / 5)⌋ = 308 := by norm_num
    rw [if_pos (by norm_num : (0 : ℚ) ≤ 11 / 10), h308]
    decide

/-- C9 witness: the bound instantiated on a fresh engine at identifier
"systemd" with pid 2. -/
theorem C9_witness :
    decisionPriorityLe
      (scheduleTask ⟨fun _ _ => 30, fun _ => 0⟩ (AstrologicalScheduler.new 300)
        "systemd" 2 0) 308 ∧
    decisionPriorityLt
      (scheduleTask ⟨fun _ _ => 30, fun _ => 0⟩ (AstrologicalScheduler.new 300)
        "systemd" 2 0) 1000 :=
  C9_noncritical_priority_bounded.1 ⟨fun _ _ => 30, fun _ => 0⟩
    (AstrologicalScheduler.new 300) "systemd" 2 0 (by decide)

end Horoscope
